import Mathlib

/- Verification of the frame-layout and text-fit engine of the AnnotationFrame
   PixInsight script (src/AnnotationFrame.js).  JavaScript numbers are modelled
   as exact rationals; the single place where the host's IEEE special values
   matter (division by zero producing an infinity, in textFits) uses an
   explicit JSNum type with the host's rules for infinities. -/

/-- Math.trunc: truncation toward zero (floor for nonnegative, ceil for
negative arguments). -/
def ratTrunc (q : ℚ) : ℤ := if 0 ≤ q then ⌊q⌋ else ⌈q⌉

/-- Math.round: round half toward positive infinity. -/
def jsRound (q : ℚ) : ℤ := ⌊q + 1/2⌋

/-- The allDimensions record populated by calculateAllDimensions
(src/AnnotationFrame.js lines 62-73). -/
structure GeometryModel where
  imageWidth : ℚ
  imageHeight : ℚ
  innerFrameThickness : ℚ
  framedImageWidth : ℚ
  framedImageHeight : ℚ
  outerFrameWidth : ℚ
  outerFrameHeight : ℚ
  titleBarHeight : ℤ
  bottomBarHeight : ℤ
deriving DecidableEq

/-- calculateAllDimensions (src/AnnotationFrame.js lines 105-132).  The
globals it reads (innerFrameThickness, frameWidthIncPerc, frameHeightIncPerc,
verticalImageFactor) are passed explicitly. -/
def calculateAllDimensions (imageWidth imageHeight innerFrameThickness
    frameWidthIncPerc frameHeightIncPerc verticalImageFactor : ℚ) :
    GeometryModel :=
  let framedImageWidth := imageWidth + 2 * innerFrameThickness
  let framedImageHeight := imageHeight + 2 * innerFrameThickness
  let outerFrameWidth := framedImageWidth * (1 + frameWidthIncPerc / 100)
  let outerFrameHeight := framedImageHeight * (1 + frameHeightIncPerc / 100)
  { imageWidth := imageWidth
    imageHeight := imageHeight
    innerFrameThickness := innerFrameThickness
    framedImageWidth := framedImageWidth
    framedImageHeight := framedImageHeight
    outerFrameWidth := outerFrameWidth
    outerFrameHeight := outerFrameHeight
    titleBarHeight := ratTrunc
      ((outerFrameHeight / 2 - framedImageHeight / 2) -
        (verticalImageFactor - 0.5) * framedImageHeight)
    bottomBarHeight := ratTrunc
      ((outerFrameHeight / 2 - framedImageHeight / 2) -
        (0.5 - verticalImageFactor) * framedImageHeight) }

/-- calculateDisplacement (src/AnnotationFrame.js lines 153-166); the globals
allDimensions.outerFrameHeight and allDimensions.framedImageHeight it reads
are passed explicitly. -/
def calculateDisplacement (outerFrameHeight framedImageHeight percentage : ℚ) : ℚ :=
  let maxMovePixels := outerFrameHeight - framedImageHeight
  let maxMoveFactor := maxMovePixels / outerFrameHeight
  0.5 - maxMoveFactor / 2 + maxMoveFactor * (percentage / 100)

/-- calculateFonts (src/AnnotationFrame.js lines 142-150): the pair of
computed font sizes (title, bottom). -/
def calculateFonts (titleBarHeight bottomBarHeight : ℤ)
    (titleFontSizeFactor bottomFontSizeFactor : ℚ) : ℚ × ℚ :=
  ((titleBarHeight : ℚ) * titleFontSizeFactor,
   (bottomBarHeight : ℚ) / 3 * bottomFontSizeFactor)

/-- Font size handed to the Annotation process by renderTextDimensions
(src/AnnotationFrame.js lines 279-282): rounded, clamped at 255. -/
def renderTextFontSize (fontSize : ℚ) : ℚ :=
  if fontSize < 256 then (jsRound fontSize : ℚ) else 255

/-- Font size handed to the Annotation process by writeImageTitle
(src/AnnotationFrame.js lines 428-431): rounded, clamped at 255. -/
def writeImageTitleFontSize (fontSize : ℚ) : ℚ :=
  if fontSize < 256 then (jsRound fontSize : ℚ) else 255

/-- Font size handed to the Annotation process by writeBottomText
(src/AnnotationFrame.js line 496): the raw computed size, with no rounding
and no clamping. -/
def writeBottomTextFontSize (fontSize : ℚ) : ℚ := fontSize

/-- Evaluation rule for ratTrunc at a nonnegative argument. -/
lemma ratTrunc_eq_of_le (q : ℚ) (z : ℤ) (h0 : (0:ℚ) ≤ q)
    (h1 : (z:ℚ) ≤ q) (h2 : q < z + 1) : ratTrunc q = z := by
  rw [ratTrunc, if_pos h0]
  exact Int.floor_eq_iff.mpr ⟨h1, h2⟩

/-- Evaluation rule for ratTrunc at a negative argument. -/
lemma ratTrunc_eq_of_neg (q : ℚ) (z : ℤ) (h0 : ¬ (0:ℚ) ≤ q)
    (h1 : (z:ℚ) - 1 < q) (h2 : q ≤ z) : ratTrunc q = z := by
  rw [ratTrunc, if_neg h0]
  exact Int.ceil_eq_iff.mpr ⟨h1, h2⟩

/-- Claim C1: calculateAllDimensions derives the model exactly by the stated
formulas (framed = image + 2*thickness, outer = framed scaled by the border
percentages, bars truncated from the placement split), and on the inputs
imageW=1000, imageH=800, thickness=10, borderWidthPct=3, borderHeightPct=25,
placement factor v=1/2 (placementPct=50) it yields framedImageWidth=1020,
framedImageHeight=820, outerFrameWidth=1050.6, outerFrameHeight=1025 and
titleBarHeight=bottomBarHeight=102. -/
theorem calculateAllDimensions_spec (w h t pw ph v : ℚ)
    (hw : 0 < w) (hh : 0 < h) :
    (calculateAllDimensions w h t pw ph v).framedImageWidth = w + 2 * t ∧
    (calculateAllDimensions w h t pw ph v).framedImageHeight = h + 2 * t ∧
    (calculateAllDimensions w h t pw ph v).outerFrameWidth =
      (calculateAllDimensions w h t pw ph v).framedImageWidth * (1 + pw / 100) ∧
    (calculateAllDimensions w h t pw ph v).outerFrameHeight =
      (calculateAllDimensions w h t pw ph v).framedImageHeight * (1 + ph / 100) ∧
    (calculateAllDimensions w h t pw ph v).titleBarHeight =
      ratTrunc (((calculateAllDimensions w h t pw ph v).outerFrameHeight / 2 -
        (calculateAllDimensions w h t pw ph v).framedImageHeight / 2) -
        (v - 0.5) * (calculateAllDimensions w h t pw ph v).framedImageHeight) ∧
    (calculateAllDimensions w h t pw ph v).bottomBarHeight =
      ratTrunc (((calculateAllDimensions w h t pw ph v).outerFrameHeight / 2 -
        (calculateAllDimensions w h t pw ph v).framedImageHeight / 2) -
        (0.5 - v) * (calculateAllDimensions w h t pw ph v).framedImageHeight) ∧
    calculateAllDimensions 1000 800 10 3 25 (1/2) =
      { imageWidth := 1000, imageHeight := 800, innerFrameThickness := 10,
        framedImageWidth := 1020, framedImageHeight := 820,
        outerFrameWidth := 5253/5, outerFrameHeight := 1025,
        titleBarHeight := 102, bottomBarHeight := 102 } := by
  refine ⟨rfl, rfl, rfl, rfl, rfl, rfl, ?_⟩
  simp only [calculateAllDimensions, GeometryModel.mk.injEq]
  refine ⟨by norm_num, by norm_num, by norm_num, by norm_num, by norm_num,
    by norm_num, by norm_num, ?_, ?_⟩ <;>
    exact ratTrunc_eq_of_le _ 102 (by norm_num) (by norm_num) (by norm_num)

/-- Witness for C1 at the example inputs. -/
theorem calculateAllDimensions_spec_spot :
    (0:ℚ) < 1000 ∧ (0:ℚ) < 800 ∧
    (calculateAllDimensions 1000 800 10 3 25 (1/2)).framedImageWidth =
      1000 + 2 * 10 :=
  ⟨by norm_num, by norm_num,
    (calculateAllDimensions_spec 1000 800 10 3 25 (1/2)
      (by norm_num) (by norm_num)).1⟩

/-- Claim C5 (code bug): on the writeBottomText writing path the raw real
font size is handed to the Annotation process, not the rounded value
saturated at 255; the measurement path and the title writing path do clamp
the same size to 255. -/
theorem writeBottomText_fontSize_unclamped :
    writeBottomTextFontSize 300 = 300 ∧
    renderTextFontSize 300 = 255 ∧
    writeImageTitleFontSize 300 = 255 ∧
    (300 : ℚ) ≠ 255 := by
  refine ⟨rfl, ?_, ?_, by norm_num⟩ <;>
    norm_num [renderTextFontSize, writeImageTitleFontSize]

/-- Claim C6 counterexample: at the invalid input imageW=100, imageH=100
with borderHeightPercent=-50 the derivation does not reject; it derives a
complete GeometryModel whose bar heights are negative. -/
theorem invalid_input_not_rejected :
    calculateAllDimensions 100 100 10 3 (-50) (1/2) =
      { imageWidth := 100, imageHeight := 100, innerFrameThickness := 10,
        framedImageWidth := 120, framedImageHeight := 120,
        outerFrameWidth := 618/5, outerFrameHeight := 60,
        titleBarHeight := -30, bottomBarHeight := -30 } ∧
    ((calculateAllDimensions 100 100 10 3 (-50) (1/2)).titleBarHeight < 0) := by
  have hmodel : calculateAllDimensions 100 100 10 3 (-50) (1/2) =
      { imageWidth := 100, imageHeight := 100, innerFrameThickness := 10,
        framedImageWidth := 120, framedImageHeight := 120,
        outerFrameWidth := 618/5, outerFrameHeight := 60,
        titleBarHeight := -30, bottomBarHeight := -30 } := by
    simp only [calculateAllDimensions, GeometryModel.mk.injEq]
    refine ⟨by norm_num, by norm_num, by norm_num, by norm_num, by norm_num,
      by norm_num, by norm_num, ?_, ?_⟩ <;>
      exact ratTrunc_eq_of_neg _ (-30) (by norm_num) (by norm_num) (by norm_num)
  exact ⟨hmodel, by rw [hmodel]; norm_num⟩

/-- Claim C6 amended: the geometry derivation performs no input validation;
for any image height it still derives a full GeometryModel at a negative
border-height percentage, propagating a negative title-bar height instead of
returning an InvalidGeometry failure. -/
theorem negative_percent_negative_bars (w pw h : ℚ) (hh : 0 < h) :
    (calculateAllDimensions w h 10 pw (-50) (1/2)).titleBarHeight < 0 := by
  have hred : (calculateAllDimensions w h 10 pw (-50) (1/2)).titleBarHeight =
      ratTrunc (-((h + 20) / 4)) := by
    show ratTrunc _ = _
    congr 1
    norm_num
    ring
  rw [hred]
  have hneg : ¬ (0:ℚ) ≤ -((h + 20) / 4) := by
    intro hcon
    nlinarith
  rw [ratTrunc, if_neg hneg]
  have hceil : ⌈-((h + 20) / 4)⌉ ≤ (-1 : ℤ) := by
    rw [Int.ceil_le]
    push_cast
    nlinarith
  omega

/-- Witness for the amended C6 at the concrete invalid input. -/
theorem negative_percent_negative_bars_spot :
    (0:ℚ) < 100 ∧
    (calculateAllDimensions 100 100 10 3 (-50) (1/2)).titleBarHeight < 0 :=
  ⟨by norm_num, negative_percent_negative_bars 100 3 100 (by norm_num)⟩

/-- The column-related part of the annotationFrameParameters record
(src/AnnotationFrame.js lines 44-60). -/
structure AnnotationParams where
  leftColumn : Bool
  centerColumn : Bool
  rightColumn : Bool
  nrOfColumns : ℕ
deriving DecidableEq

/-- The recount performed at the end of each column checkbox onClick handler
(nrOfColumns = 0; three conditional increments). -/
def countColumns (l c r : Bool) : ℕ :=
  (if l then 1 else 0) + (if c then 1 else 0) + (if r then 1 else 0)

/-- leftColumnCheckbox.onClick (src/AnnotationFrame.js lines 1243-1267);
checked is the checkbox state after the click. -/
def leftColumnClick (s : AnnotationParams) (checked : Bool) : AnnotationParams :=
  let s1 : AnnotationParams := { s with leftColumn := checked }
  { s1 with nrOfColumns := countColumns s1.leftColumn s1.centerColumn s1.rightColumn }

/-- centerColumnCheckbox.onClick (src/AnnotationFrame.js lines 1283-1307). -/
def centerColumnClick (s : AnnotationParams) (checked : Bool) : AnnotationParams :=
  let s1 : AnnotationParams := { s with centerColumn := checked }
  { s1 with nrOfColumns := countColumns s1.leftColumn s1.centerColumn s1.rightColumn }

/-- rightColumnCheckbox.onClick (src/AnnotationFrame.js lines 1323-1347). -/
def rightColumnClick (s : AnnotationParams) (checked : Bool) : AnnotationParams :=
  let s1 : AnnotationParams := { s with rightColumn := checked }
  { s1 with nrOfColumns := countColumns s1.leftColumn s1.centerColumn s1.rightColumn }

/-- Initial annotationFrameParameters: all three columns enabled,
nrOfColumns = 3. -/
def initParams : AnnotationParams :=
  { leftColumn := true, centerColumn := true, rightColumn := true,
    nrOfColumns := 3 }

/-- Claim C9: after any column checkbox toggle the stored nrOfColumns equals
the number of column flags that are true in the resulting state; it is always
recomputed from the flags. -/
theorem nrOfColumns_recomputed (s : AnnotationParams) (b : Bool) :
    (leftColumnClick s b).nrOfColumns =
      countColumns (leftColumnClick s b).leftColumn
        (leftColumnClick s b).centerColumn (leftColumnClick s b).rightColumn ∧
    (centerColumnClick s b).nrOfColumns =
      countColumns (centerColumnClick s b).leftColumn
        (centerColumnClick s b).centerColumn (centerColumnClick s b).rightColumn ∧
    (rightColumnClick s b).nrOfColumns =
      countColumns (rightColumnClick s b).leftColumn
        (rightColumnClick s b).centerColumn (rightColumnClick s b).rightColumn :=
  ⟨rfl, rfl, rfl⟩

/-- The mutable script state the dialog handlers operate on: the geometry
globals (src/AnnotationFrame.js lines 37-41), the image dimensions, the
allDimensions record and the two computed font sizes. -/
structure ScriptState where
  frameWidthIncPerc : ℚ
  frameHeightIncPerc : ℚ
  verticalImageOffset : ℚ
  verticalImageFactor : ℚ
  imageWidth : ℚ
  imageHeight : ℚ
  dims : GeometryModel
  titleFontSize : ℚ
  bottomFontSize : ℚ
deriving DecidableEq

/-- The calculateAllDimensions + calculateFonts sequence every handler runs
(title sizeFactor 0.3, bottom sizeFactor 0.36). -/
def recalcDims (s : ScriptState) : ScriptState :=
  let d := calculateAllDimensions s.imageWidth s.imageHeight
    s.dims.innerFrameThickness s.frameWidthIncPerc s.frameHeightIncPerc
    s.verticalImageFactor
  let f := calculateFonts d.titleBarHeight d.bottomBarHeight (3/10) (36/100)
  { s with dims := d, titleFontSize := f.1, bottomFontSize := f.2 }

/-- imageViewList.onViewSelected (src/AnnotationFrame.js lines 765-775,
with no stored FITS parameters): set the image, then recompute dimensions
and fonts.  The displacement solver is not re-invoked. -/
def onViewSelected (s : ScriptState) (w h : ℚ) : ScriptState :=
  recalcDims { s with imageWidth := w, imageHeight := h }

/-- verBorderWidthFactor.onValueUpdated (src/AnnotationFrame.js lines
930-936): set frameHeightIncPerc, then recompute dimensions and fonts.
The displacement solver is not re-invoked. -/
def onVerBorderWidthUpdated (s : ScriptState) (value : ℚ) : ScriptState :=
  recalcDims { s with frameHeightIncPerc := value }

/-- verImagePlacement.onValueUpdated (src/AnnotationFrame.js lines 955-962):
set verticalImageOffset, recompute verticalImageFactor from the current
allDimensions, then recompute dimensions and fonts. -/
def onVerImagePlacementUpdated (s : ScriptState) (value : ℚ) : ScriptState :=
  recalcDims { s with
    verticalImageOffset := value,
    verticalImageFactor := calculateDisplacement s.dims.outerFrameHeight
      s.dims.framedImageHeight value }

/-- The script's initial global state (src/AnnotationFrame.js lines 37-41,
62-73): percentages 3 and 25, offset 50, factor 0.5, empty dimensions with
innerFrameThickness 10. -/
def initScriptState : ScriptState :=
  { frameWidthIncPerc := 3, frameHeightIncPerc := 25,
    verticalImageOffset := 50, verticalImageFactor := 0.5,
    imageWidth := 0, imageHeight := 0,
    dims := { imageWidth := 0, imageHeight := 0, innerFrameThickness := 10,
              framedImageWidth := 0, framedImageHeight := 0,
              outerFrameWidth := 0, outerFrameHeight := 0,
              titleBarHeight := 0, bottomBarHeight := 0 },
    titleFontSize := 0, bottomFontSize := 0 }

/-- Select a 1000x800 image, move the placement to 0%, then change the
frame-height percentage from 25 to 10. -/
def staleStateExample : ScriptState :=
  onVerBorderWidthUpdated
    (onVerImagePlacementUpdated (onViewSelected initScriptState 1000 800) 0) 10

/-- Claim C4 counterexample: after the border-height change the dimension
calculation has run with a placement factor (0.4, computed when
outerFrameHeight was 1025) that differs from the DisplacementSolver formula
evaluated at the current outerFrameHeight 902 and framedImageHeight 820
(which gives 205/451); the solver was not re-invoked. -/
theorem displacement_stale_after_border_change :
    staleStateExample.verticalImageFactor = 2/5 ∧
    calculateDisplacement staleStateExample.dims.outerFrameHeight
      staleStateExample.dims.framedImageHeight
      staleStateExample.verticalImageOffset = 205/451 ∧
    staleStateExample.verticalImageFactor ≠
      calculateDisplacement staleStateExample.dims.outerFrameHeight
        staleStateExample.dims.framedImageHeight
        staleStateExample.verticalImageOffset := by
  have h1 : staleStateExample.verticalImageFactor = 2/5 := by
    simp only [staleStateExample, onVerBorderWidthUpdated,
      onVerImagePlacementUpdated, onViewSelected, recalcDims, initScriptState]
    norm_num [calculateDisplacement, calculateAllDimensions]
  have h2 : calculateDisplacement staleStateExample.dims.outerFrameHeight
      staleStateExample.dims.framedImageHeight
      staleStateExample.verticalImageOffset = 205/451 := by
    simp only [staleStateExample, onVerBorderWidthUpdated,
      onVerImagePlacementUpdated, onViewSelected, recalcDims, initScriptState]
    norm_num [calculateDisplacement, calculateAllDimensions]
  refine ⟨h1, h2, ?_⟩
  rw [h1, h2]
  norm_num


/-- Claim C4 amended: the displacement solver is re-invoked only by the
vertical-placement handler, where it is evaluated at the allDimensions in
effect when the handler starts; the border-height handler and the image
selection handler leave the stored placement factor unchanged while
recomputing the dimensions. -/
theorem displacement_reinvocation_behavior (s : ScriptState) (value w h : ℚ) :
    (onVerImagePlacementUpdated s value).verticalImageFactor =
      calculateDisplacement s.dims.outerFrameHeight s.dims.framedImageHeight
        value ∧
    (onVerBorderWidthUpdated s value).verticalImageFactor =
      s.verticalImageFactor ∧
    (onViewSelected s w h).verticalImageFactor = s.verticalImageFactor :=
  ⟨rfl, rfl, rfl⟩

/-- The scratch raster: a grayscale sample value for every pixel
coordinate. -/
abbrev Raster : Type := ℕ → ℕ → ℚ

/-- The measured text dimensions record
(src/AnnotationFrame.js line 273). -/
structure TextDimensions where
  length : ℕ
  height : ℕ
deriving DecidableEq

/-- Arithmetic form of the conditional maximum updates in the scan loop. -/
lemma if_gt_eq_max (a b : ℕ) : (if b > a then b else a) = max a b := by
  rcases Nat.lt_or_ge a b with hab | hab
  · rw [if_pos hab, Nat.max_eq_right (Nat.le_of_lt hab)]
  · rw [if_neg (Nat.not_lt.mpr hab), Nat.max_eq_left hab]

/-- The body of the pixel scan loop (src/AnnotationFrame.js lines 306-309):
on an ink pixel (sample > 0), raise the recorded length to x and the
recorded height to y. -/
def scanPixel (img : Raster) (x y : ℕ) (td : TextDimensions) : TextDimensions :=
  if 0 < img x y then
    { length := if x > td.length then x else td.length,
      height := if y > td.height then y else td.height }
  else td

/-- The inner loop over y (src/AnnotationFrame.js line 305). -/
def scanColumn (img : Raster) (H x : ℕ) (td : TextDimensions) : TextDimensions :=
  (List.range H).foldl (fun td y => scanPixel img x y td) td

/-- renderTextDimensions (src/AnnotationFrame.js lines 272-322), reduced to
its measurement content: the rendered raster is scanned pixel by pixel
(outer loop x, inner loop y) starting from {length 0, height 0}. -/
def renderTextDimensions (img : Raster) (W H : ℕ) : TextDimensions :=
  (List.range W).foldl (fun td x => scanColumn img H x td)
    { length := 0, height := 0 }

/-- The ink rows of column x: all y < H with sample x y > 0. -/
def colInk (img : Raster) (H x : ℕ) : Finset ℕ :=
  (Finset.range H).filter fun y => 0 < img x y

/-- The ink columns of row y: all x < W with sample x y > 0. -/
def rowInk (img : Raster) (W y : ℕ) : Finset ℕ :=
  (Finset.range W).filter fun x => 0 < img x y

/-- All x-coordinates at which some ink pixel occurs. -/
def inkCols (img : Raster) (W H : ℕ) : Finset ℕ :=
  (Finset.range W).filter fun x => (colInk img H x).Nonempty

/-- All y-coordinates at which some ink pixel occurs. -/
def inkRows (img : Raster) (W H : ℕ) : Finset ℕ :=
  (Finset.range H).filter fun y => (rowInk img W y).Nonempty

lemma scanPixel_eq (img : Raster) (x y : ℕ) (td : TextDimensions) :
    scanPixel img x y td =
      if 0 < img x y then
        { length := max td.length x, height := max td.height y }
      else td := by
  rw [scanPixel, if_gt_eq_max, if_gt_eq_max]

/-- Closed form of the inner scan loop: the recorded length rises to x
exactly when column x holds ink, and the recorded height rises to the
largest inked y of the column. -/
lemma scanColumn_eq (img : Raster) (x : ℕ) (td : TextDimensions) (H : ℕ) :
    scanColumn img H x td =
      if (colInk img H x).Nonempty then
        { length := max td.length x,
          height := max td.height ((colInk img H x).sup id) }
      else td := by
  induction H with
  | zero =>
    rw [scanColumn]
    simp [colInk]
  | succ H ih =>
    have hstep : scanColumn img (H + 1) x td =
        scanPixel img x H (scanColumn img H x td) := by
      rw [scanColumn, scanColumn, List.range_succ, List.foldl_append,
        List.foldl_cons, List.foldl_nil]
    have hins : colInk img (H + 1) x =
        if 0 < img x H then insert H (colInk img H x) else colInk img H x := by
      rw [colInk, colInk, Finset.range_succ, Finset.filter_insert]
    rw [hstep, ih, scanPixel_eq, hins]
    by_cases hH : 0 < img x H
    · by_cases hne : (colInk img H x).Nonempty
      · simp only [if_pos hH, if_pos hne, if_pos (Finset.insert_nonempty _ _),
          Finset.sup_insert, id_eq]
        refine congrArg₂ TextDimensions.mk ?_ ?_ <;> omega
      · rw [Finset.not_nonempty_iff_eq_empty.mp hne]
        simp [hH]
    · by_cases hne : (colInk img H x).Nonempty
      · simp only [if_pos hne, if_neg hH]
      · simp only [if_neg hne, if_neg hH]

/-- Closed form of the outer scan loop over the columns. -/
lemma foldScan_eq (img : Raster) (H : ℕ) (td : TextDimensions) (W : ℕ) :
    (List.range W).foldl (fun td x => scanColumn img H x td) td =
      { length := max td.length ((Finset.range W).sup fun x =>
          if (colInk img H x).Nonempty then x else 0),
        height := max td.height ((Finset.range W).sup fun x =>
          (colInk img H x).sup id) } := by
  induction W with
  | zero => simp
  | succ W ih =>
    rw [List.range_succ, List.foldl_append, List.foldl_cons, List.foldl_nil,
      ih, scanColumn_eq, Finset.range_succ, Finset.sup_insert,
      Finset.sup_insert]
    by_cases hne : (colInk img H W).Nonempty
    · simp only [if_pos hne]
      refine congrArg₂ TextDimensions.mk ?_ ?_ <;> omega
    · simp only [if_neg hne]
      have hzero : (colInk img H W).sup id = 0 := by
        rw [Finset.not_nonempty_iff_eq_empty.mp hne, Finset.sup_empty]
        rfl
      rw [hzero]
      refine congrArg₂ TextDimensions.mk ?_ ?_ <;> omega

/-- The per-column maxima collapse to the overall largest inked
x-coordinate. -/
lemma sup_ifNonempty_eq (img : Raster) (W H : ℕ) :
    ((Finset.range W).sup fun x =>
      if (colInk img H x).Nonempty then x else 0) = (inkCols img W H).sup id := by
  apply le_antisymm
  · refine Finset.sup_le fun x hx => ?_
    by_cases hne : (colInk img H x).Nonempty
    · rw [if_pos hne]
      exact @Finset.le_sup ℕ ℕ _ _ (inkCols img W H) id x
        (Finset.mem_filter.mpr ⟨hx, hne⟩)
    · rw [if_neg hne]
      exact Nat.zero_le _
  · refine Finset.sup_le fun x hx => ?_
    obtain ⟨hxr, hne⟩ := Finset.mem_filter.mp hx
    have h := @Finset.le_sup ℕ ℕ _ _ (Finset.range W)
      (fun x => if (colInk img H x).Nonempty then x else 0) x hxr
    simp only [hne, if_true] at h
    exact h

/-- The nested column suprema collapse to the overall largest inked
y-coordinate. -/
lemma sup_colInk_eq (img : Raster) (W H : ℕ) :
    ((Finset.range W).sup fun x => (colInk img H x).sup id) =
      (inkRows img W H).sup id := by
  apply le_antisymm
  · refine Finset.sup_le fun x hx => Finset.sup_le fun y hy => ?_
    obtain ⟨hyH, hink⟩ := Finset.mem_filter.mp hy
    exact @Finset.le_sup ℕ ℕ _ _ (inkRows img W H) id y
      (Finset.mem_filter.mpr ⟨hyH, ⟨x, Finset.mem_filter.mpr ⟨hx, hink⟩⟩⟩)
  · refine Finset.sup_le fun y hy => ?_
    obtain ⟨hyH, hx⟩ := Finset.mem_filter.mp hy
    obtain ⟨x, hxmem⟩ := hx
    obtain ⟨hxW, hink⟩ := Finset.mem_filter.mp hxmem
    have h1 : y ≤ (colInk img H x).sup id :=
      @Finset.le_sup ℕ ℕ _ _ (colInk img H x) id y
        (Finset.mem_filter.mpr ⟨hyH, hink⟩)
    have h2 := @Finset.le_sup ℕ ℕ _ _ (Finset.range W)
      (fun x => (colInk img H x).sup id) x hxW
    exact le_trans h1 h2

/-- The full scan computes exactly the largest inked x- and y-coordinates. -/
lemma renderTextDimensions_eq (img : Raster) (W H : ℕ) :
    renderTextDimensions img W H =
      { length := (inkCols img W H).sup id,
        height := (inkRows img W H).sup id } := by
  rw [renderTextDimensions, foldScan_eq, sup_ifNonempty_eq, sup_colInk_eq]
  simp

/-- Claim C2: the scan of the whole raster returns as length the maximum
x-coordinate at which an ink pixel (sample > 0) was found, and as height the
maximum y-coordinate, the suprema being 0 when the raster holds no ink at
all (in particular for a blank rendering of the empty string). -/
theorem renderTextDimensions_ink_extents (img : Raster) (W H : ℕ) :
    (renderTextDimensions img W H).length = (inkCols img W H).sup id ∧
    (renderTextDimensions img W H).height = (inkRows img W H).sup id ∧
    ((∀ x, x < W → ∀ y, y < H → ¬ 0 < img x y) →
      renderTextDimensions img W H = { length := 0, height := 0 }) := by
  refine ⟨by rw [renderTextDimensions_eq], by rw [renderTextDimensions_eq],
    fun hblank => ?_⟩
  rw [renderTextDimensions_eq]
  have hcols : inkCols img W H = ∅ := by
    rw [inkCols, Finset.filter_eq_empty_iff]
    intro x hx
    rw [Finset.not_nonempty_iff_eq_empty, colInk, Finset.filter_eq_empty_iff]
    intro y hy
    exact hblank x (Finset.mem_range.mp hx) y (Finset.mem_range.mp hy)
  have hrows : inkRows img W H = ∅ := by
    rw [inkRows, Finset.filter_eq_empty_iff]
    intro y hy
    rw [Finset.not_nonempty_iff_eq_empty, rowInk, Finset.filter_eq_empty_iff]
    intro x hx
    exact hblank x (Finset.mem_range.mp hx) y (Finset.mem_range.mp hy)
  rw [hcols, hrows]
  rfl

/-- Witness for C2: an all-blank raster measures 0 by 0. -/
theorem renderTextDimensions_ink_extents_spot :
    renderTextDimensions (fun _ _ => (0:ℚ)) 4 5 = { length := 0, height := 0 } :=
  (renderTextDimensions_ink_extents (fun _ _ => (0:ℚ)) 4 5).2.2
    (fun x hx y hy => by simp)

/-- A JavaScript number as it occurs in the fit checks: either a finite
value (modelled exactly as a rational) or one of the IEEE special values
produced by the host's arithmetic. -/
inductive JSNum where
  | fin (q : ℚ)
  | posInf
  | negInf
  | nan
deriving DecidableEq

/-- JavaScript division, including division of a finite number by zero. -/
def jsDiv : JSNum → JSNum → JSNum
  | .nan, _ => .nan
  | _, .nan => .nan
  | .fin a, .fin b =>
      if b = 0 then (if 0 < a then .posInf else if a < 0 then .negInf else .nan)
      else .fin (a / b)
  | .fin _, .posInf => .fin 0
  | .fin _, .negInf => .fin 0
  | .posInf, .fin b => if 0 ≤ b then .posInf else .negInf
  | .negInf, .fin b => if 0 ≤ b then .negInf else .posInf
  | .posInf, .posInf => .nan
  | .posInf, .negInf => .nan
  | .negInf, .posInf => .nan
  | .negInf, .negInf => .nan

/-- JavaScript multiplication on the values the fit checks produce. -/
def jsMul : JSNum → JSNum → JSNum
  | .nan, _ => .nan
  | _, .nan => .nan
  | .fin a, .fin b => .fin (a * b)
  | .fin a, .posInf => if 0 < a then .posInf else if a < 0 then .negInf else .nan
  | .fin a, .negInf => if 0 < a then .negInf else if a < 0 then .posInf else .nan
  | .posInf, .fin b => if 0 < b then .posInf else if b < 0 then .negInf else .nan
  | .negInf, .fin b => if 0 < b then .negInf else if b < 0 then .posInf else .nan
  | .posInf, .posInf => .posInf
  | .posInf, .negInf => .negInf
  | .negInf, .posInf => .negInf
  | .negInf, .negInf => .posInf

/-- JavaScript subtraction on the values the fit checks produce. -/
def jsSub : JSNum → JSNum → JSNum
  | .nan, _ => .nan
  | _, .nan => .nan
  | .fin a, .fin b => .fin (a - b)
  | .posInf, .fin _ => .posInf
  | .negInf, .fin _ => .negInf
  | .fin _, .posInf => .negInf
  | .fin _, .negInf => .posInf
  | .posInf, .posInf => .nan
  | .posInf, .negInf => .posInf
  | .negInf, .negInf => .nan
  | .negInf, .posInf => .negInf

/-- The JavaScript strict less-than comparison. -/
def jsLt : JSNum → JSNum → Bool
  | .nan, _ => false
  | _, .nan => false
  | .fin a, .fin b => decide (a < b)
  | .fin _, .posInf => true
  | .posInf, .fin _ => false
  | .negInf, .fin _ => true
  | .fin _, .negInf => false
  | .posInf, .posInf => false
  | .negInf, .negInf => false
  | .negInf, .posInf => true
  | .posInf, .negInf => false

/-- titleFits (src/AnnotationFrame.js lines 177-186): the measured length of
the rendered title raster is compared against framedImageWidth. -/
def titleFits (img : Raster) (W H : ℕ) (framedImageWidth : ℚ) : Bool :=
  if ((renderTextDimensions img W H).length : ℚ) < framedImageWidth then true
  else false

/-- textFits (src/AnnotationFrame.js lines 198-208): the measured length of
the rendered caption raster is compared against
framedImageWidth / nrOfColumns - 0.02 * framedImageWidth, evaluated with the
host's number semantics. -/
def textFits (img : Raster) (W H : ℕ) (framedImageWidth nrOfColumns : ℚ) :
    Bool :=
  if jsLt (.fin ((renderTextDimensions img W H).length : ℚ))
      (jsSub (jsDiv (.fin framedImageWidth) (.fin nrOfColumns))
        (jsMul (.fin 0.02) (.fin framedImageWidth))) then true
  else false

/-- Claim C3: titleFits holds exactly when the measured ink width is
strictly below framedImageWidth, and for a nonzero column count (the
documented domain is 1-3) textFits holds exactly when the measured ink
width is strictly below framedImageWidth / columns - 0.02*framedImageWidth. -/
theorem fits_iff (img : Raster) (W H : ℕ) (framedImageWidth n : ℚ)
    (hn : n ≠ 0) :
    (titleFits img W H framedImageWidth = true ↔
      ((renderTextDimensions img W H).length : ℚ) < framedImageWidth) ∧
    (textFits img W H framedImageWidth n = true ↔
      ((renderTextDimensions img W H).length : ℚ) <
        framedImageWidth / n - 0.02 * framedImageWidth) := by
  constructor
  · rw [titleFits]
    split <;> simp_all
  · rw [textFits, jsDiv, if_neg hn, jsMul, jsSub, jsLt]
    split <;> simp_all

/-- The supremum of an initial segment of the naturals. -/
lemma sup_range_id (n : ℕ) : (Finset.range (n + 1)).sup id = n := by
  induction n with
  | zero => rfl
  | succ n ih =>
    rw [Finset.range_succ, Finset.sup_insert, ih]
    simp

/-- A raster whose ink spans exactly the columns 0..500 of row 0. -/
def inkStripe : Raster := fun x _ => if x ≤ 500 then 1 else 0

set_option maxRecDepth 4000 in
/-- The stripe raster measures length 500. -/
lemma inkStripe_length : (renderTextDimensions inkStripe 501 1).length = 500 := by
  have hcols : inkCols inkStripe 501 1 = Finset.range 501 := by
    rw [inkCols]
    apply Finset.filter_true_of_mem
    intro x hx
    refine ⟨0, ?_⟩
    rw [colInk, Finset.mem_filter, Finset.mem_range]
    have hx500 : x ≤ 500 := by
      have := Finset.mem_range.mp hx
      omega
    refine ⟨by omega, ?_⟩
    rw [inkStripe]
    simp [hx500]
  rw [renderTextDimensions_eq, hcols]
  exact sup_range_id 500

/-- Witness for C3, the spec's example: a measured width of 500 against
framedImageWidth 1020 and 3 columns does not fit (budget 319.6). -/
theorem fits_iff_spot :
    (3:ℚ) ≠ 0 ∧ textFits inkStripe 501 1 1020 3 = false := by
  refine ⟨by norm_num, ?_⟩
  have h := (fits_iff inkStripe 501 1 1020 3 (by norm_num)).2
  rw [inkStripe_length] at h
  have hnum : ¬ ((500:ℕ):ℚ) < 1020 / 3 - 0.02 * 1020 := by norm_num
  rcases hb : textFits inkStripe 501 1 1020 3 with _ | _
  · rfl
  · exact absurd (h.mp hb) hnum

/-- Claim C10: with all three columns disabled the derived column count is 0
(reachable by unchecking each checkbox in turn), and under the host's
arithmetic (framedImageWidth / 0 evaluating to positive infinity) textFits
returns true for every measured string. -/
theorem textFits_zero_columns :
    (∀ (img : Raster) (W H : ℕ) (framedImageWidth : ℚ),
      0 < framedImageWidth → textFits img W H framedImageWidth 0 = true) ∧
    (rightColumnClick (centerColumnClick (leftColumnClick initParams false)
      false) false).nrOfColumns = 0 := by
  constructor
  · intro img W H framedImageWidth hpos
    rw [textFits, jsDiv, if_pos rfl, if_pos hpos, jsMul, jsSub, jsLt]
    rfl
  · rfl

/-- Witness for C10 at framedImageWidth 1020 on a blank raster. -/
theorem textFits_zero_columns_spot :
    (0:ℚ) < 1020 ∧ textFits (fun _ _ => 0) 0 0 1020 0 = true :=
  ⟨by norm_num, textFits_zero_columns.1 (fun _ _ => 0) 0 0 1020 (by norm_num)⟩

/-- The effect of the Annotation process on the scratch raster: glyph
pixels (ink sample > 0) overwrite the raster, all other pixels keep their
previous value. -/
def overlayInk (base ink : Raster) : Raster :=
  fun x y => if 0 < ink x y then ink x y else base x y

/-- The PixelMath reset (src/AnnotationFrame.js lines 313-319): expression
0, applied in place, leaving a uniformly blank raster. -/
def resetRaster : Raster := fun _ _ => 0

/-- One measurement call on the scratch raster: render the glyphs onto it,
scan it, then reset it to blank; returns the measured dimensions together
with the raster left behind for the next call. -/
def measureOnScratch (scratch ink : Raster) (W H : ℕ) :
    TextDimensions × Raster :=
  (renderTextDimensions (overlayInk scratch ink) W H, resetRaster)

lemma overlayInk_reset_pos (ink : Raster) (x y : ℕ) :
    0 < overlayInk resetRaster ink x y ↔ 0 < ink x y := by
  rw [overlayInk, resetRaster]
  split
  · simp_all
  · simp_all

lemma colInk_overlay_reset (ink : Raster) (H x : ℕ) :
    colInk (overlayInk resetRaster ink) H x = colInk ink H x := by
  rw [colInk, colInk]
  exact Finset.filter_congr fun y _ => by
    rw [overlayInk_reset_pos]

lemma rowInk_overlay_reset (ink : Raster) (W y : ℕ) :
    rowInk (overlayInk resetRaster ink) W y = rowInk ink W y := by
  rw [rowInk, rowInk]
  exact Finset.filter_congr fun x _ => by
    rw [overlayInk_reset_pos]

/-- Claim C8: every measurement leaves the scratch raster uniformly blank,
so a second measurement on the same reused raster sees only the second
string's ink: its result equals the scan of the second rendering alone,
independent of the first string and of the original raster contents. -/
theorem scratch_reset_no_residual (scratch ink1 ink2 : Raster) (W H : ℕ) :
    (measureOnScratch scratch ink1 W H).2 = resetRaster ∧
    (measureOnScratch (measureOnScratch scratch ink1 W H).2 ink2 W H).1 =
      renderTextDimensions ink2 W H := by
  refine ⟨rfl, ?_⟩
  show renderTextDimensions (overlayInk resetRaster ink2) W H =
    renderTextDimensions ink2 W H
  rw [renderTextDimensions_eq, renderTextDimensions_eq]
  have hcols : inkCols (overlayInk resetRaster ink2) W H = inkCols ink2 W H := by
    rw [inkCols, inkCols]
    exact Finset.filter_congr fun x _ => by
      rw [colInk_overlay_reset]
  have hrows : inkRows (overlayInk resetRaster ink2) W H = inkRows ink2 W H := by
    rw [inkRows, inkRows]
    exact Finset.filter_congr fun y _ => by
      rw [rowInk_overlay_reset]
  rw [hcols, hrows]

/-- The geometry obtained when the DisplacementSolver is evaluated at the
current outer and framed heights, as claim C7 requires. -/
def dimsWithPlacement (w h t pw ph p : ℚ) : GeometryModel :=
  calculateAllDimensions w h t pw ph
    (calculateDisplacement ((h + 2 * t) * (1 + ph / 100)) (h + 2 * t) p)

/-- The solver's deviation from the centered factor in product form. -/
lemma calculateDisplacement_sub_half (O F p : ℚ) :
    calculateDisplacement O F p - 0.5 = (O - F) / O * ((p - 50) / 100) := by
  show (0.5 : ℚ) - (O - F) / O / 2 + (O - F) / O * (p / 100) - 0.5 = _
  have h05 : (0.5 : ℚ) = 1 / 2 := by norm_num
  rw [h05]
  ring

/-- Both bar expressions are nonnegative and they exactly split the extra
height O - F, for any placement percentage between 0 and 100. -/
lemma bars_core (F O p : ℚ) (hF : 0 < F) (hFO : F ≤ O)
    (hp0 : 0 ≤ p) (hp1 : p ≤ 100) :
    0 ≤ O / 2 - F / 2 - (calculateDisplacement O F p - 0.5) * F ∧
    0 ≤ O / 2 - F / 2 - (0.5 - calculateDisplacement O F p) * F ∧
    (O / 2 - F / 2 - (calculateDisplacement O F p - 0.5) * F) +
      (O / 2 - F / 2 - (0.5 - calculateDisplacement O F p) * F) = O - F := by
  have hO : 0 < O := lt_of_lt_of_le hF hFO
  have hv := calculateDisplacement_sub_half O F p
  have hv2 : (0.5 : ℚ) - calculateDisplacement O F p =
      -((O - F) / O * ((p - 50) / 100)) := by linarith
  have hX0 : 0 ≤ (O - F) / O * F :=
    mul_nonneg (div_nonneg (by linarith) (le_of_lt hO)) (le_of_lt hF)
  have hXD : (O - F) / O * F ≤ O - F := by
    rw [div_mul_eq_mul_div, div_le_iff₀ hO]
    nlinarith
  have hup : (O - F) / O * ((p - 50) / 100) * F ≤ (O - F) / 2 := by
    nlinarith [mul_nonneg hX0 (by linarith : (0:ℚ) ≤ 1 / 2 - (p - 50) / 100)]
  have hlo : -((O - F) / 2) ≤ (O - F) / O * ((p - 50) / 100) * F := by
    nlinarith [mul_nonneg hX0 (by linarith : (0:ℚ) ≤ (p - 50) / 100 + 1 / 2)]
  refine ⟨?_, ?_, by ring⟩
  · rw [hv]
    nlinarith [hup]
  · rw [hv2]
    nlinarith [hlo]

/-- Truncating two nonnegative summands loses strictly less than 1 pixel
each. -/
lemma trunc_pair_bounds (a b : ℚ) (ha : 0 ≤ a) (hb : 0 ≤ b) :
    ((ratTrunc a : ℚ) + (ratTrunc b : ℚ) ≤ a + b) ∧
    (a + b - 2 < (ratTrunc a : ℚ) + (ratTrunc b : ℚ)) := by
  rw [ratTrunc, if_pos ha, ratTrunc, if_pos hb]
  constructor
  · linarith [Int.floor_le a, Int.floor_le b]
  · linarith [Int.sub_one_lt_floor a, Int.sub_one_lt_floor b]

/-- Claim C7: for a positive image, nonnegative border percentages and a
placement percentage in [0, 100] with the factor derived by the solver, the
two truncated bars plus the framed height never exceed the outer height and
fall short of it by at most 2 pixels. -/
theorem bars_sum_invariant (w h t pw ph p : ℚ) (hw : 0 < w) (hh : 0 < h)
    (ht : 0 ≤ t) (hph : 0 ≤ ph) (hp0 : 0 ≤ p) (hp1 : p ≤ 100) :
    ((dimsWithPlacement w h t pw ph p).titleBarHeight : ℚ) +
      ((dimsWithPlacement w h t pw ph p).bottomBarHeight : ℚ) +
      (dimsWithPlacement w h t pw ph p).framedImageHeight ≤
      (dimsWithPlacement w h t pw ph p).outerFrameHeight ∧
    (dimsWithPlacement w h t pw ph p).outerFrameHeight - 2 ≤
      ((dimsWithPlacement w h t pw ph p).titleBarHeight : ℚ) +
      ((dimsWithPlacement w h t pw ph p).bottomBarHeight : ℚ) +
      (dimsWithPlacement w h t pw ph p).framedImageHeight := by
  have hF : 0 < h + 2 * t := by linarith
  have hq : (0:ℚ) ≤ ph / 100 := by positivity
  have hFO : h + 2 * t ≤ (h + 2 * t) * (1 + ph / 100) := by
    nlinarith [mul_nonneg (le_of_lt hF) hq]
  obtain ⟨ha, hb, hab⟩ :=
    bars_core (h + 2 * t) ((h + 2 * t) * (1 + ph / 100)) p hF hFO hp0 hp1
  have hT : (dimsWithPlacement w h t pw ph p).titleBarHeight =
      ratTrunc ((h + 2 * t) * (1 + ph / 100) / 2 - (h + 2 * t) / 2 -
        (calculateDisplacement ((h + 2 * t) * (1 + ph / 100)) (h + 2 * t) p -
          0.5) * (h + 2 * t)) := rfl
  have hB : (dimsWithPlacement w h t pw ph p).bottomBarHeight =
      ratTrunc ((h + 2 * t) * (1 + ph / 100) / 2 - (h + 2 * t) / 2 -
        ((0.5 : ℚ) -
          calculateDisplacement ((h + 2 * t) * (1 + ph / 100)) (h + 2 * t) p) *
          (h + 2 * t)) := rfl
  have hFr : (dimsWithPlacement w h t pw ph p).framedImageHeight =
      h + 2 * t := rfl
  have hOu : (dimsWithPlacement w h t pw ph p).outerFrameHeight =
      (h + 2 * t) * (1 + ph / 100) := rfl
  obtain ⟨hle, hgt⟩ := trunc_pair_bounds _ _ ha hb
  rw [hT, hB, hFr, hOu]
  constructor
  · linarith [hle, hab]
  · linarith [hgt, hab]

/-- Witness for C7 at the spec's example inputs. -/
theorem bars_sum_invariant_spot :
    (0:ℚ) < 1000 ∧ (0:ℚ) < 800 ∧ (0:ℚ) ≤ 10 ∧ (0:ℚ) ≤ 25 ∧ (0:ℚ) ≤ 50 ∧
      (50:ℚ) ≤ 100 ∧
    (((dimsWithPlacement 1000 800 10 3 25 50).titleBarHeight : ℚ) +
      ((dimsWithPlacement 1000 800 10 3 25 50).bottomBarHeight : ℚ) +
      (dimsWithPlacement 1000 800 10 3 25 50).framedImageHeight ≤
      (dimsWithPlacement 1000 800 10 3 25 50).outerFrameHeight ∧
    (dimsWithPlacement 1000 800 10 3 25 50).outerFrameHeight - 2 ≤
      ((dimsWithPlacement 1000 800 10 3 25 50).titleBarHeight : ℚ) +
      ((dimsWithPlacement 1000 800 10 3 25 50).bottomBarHeight : ℚ) +
      (dimsWithPlacement 1000 800 10 3 25 50).framedImageHeight) :=
  ⟨by norm_num, by norm_num, by norm_num, by norm_num, by norm_num,
    by norm_num,
    bars_sum_invariant 1000 800 10 3 25 50 (by norm_num) (by norm_num)
      (by norm_num) (by norm_num) (by norm_num) (by norm_num)⟩
